import Mathlib

/-!
Shallow embedding of the port-mapping reconciliation engine of
`oneclickvirt`:

* instance status taxonomy and classifiers, embedded from the
  `constant` package (`GetStableStatuses`, `GetTransitionalStatuses`,
  `GetTerminalStatuses`, `IsStableStatus`, `IsTransitionalStatus`,
  `IsTerminalStatus`);
* the reconciliation pass `syncProviderPortMappings` and the summary
  composition of `executeSyncPortMappingsTask`, embedded from
  `server/service/task/sync_port_mappings_task.go`.

External effects are made explicit: the database is a `Storage` value,
the provider's answers and the injected failures of the per-orphan
transaction steps are fields of a `SyncEnv`.
-/

namespace OneClickVirt

/-! ### Status taxonomy (`constant` package) -/

/-- Stable instance statuses, from `GetStableStatuses`. -/
def GetStableStatuses : List String :=
  ["running", "stopped", "error"]

/-- Transitional instance statuses, from `GetTransitionalStatuses`. -/
def GetTransitionalStatuses : List String :=
  ["creating", "resetting"]

/-- Terminal instance statuses, from `GetTerminalStatuses`. -/
def GetTerminalStatuses : List String :=
  ["deleting", "deleted", "failed"]

/-- Membership loop of `IsStableStatus`. -/
def IsStableStatus (status : String) : Bool :=
  GetStableStatuses.any (fun s => status == s)

/-- Membership loop of `IsTransitionalStatus`. -/
def IsTransitionalStatus (status : String) : Bool :=
  GetTransitionalStatuses.any (fun s => status == s)

/-- Membership loop of `IsTerminalStatus`. -/
def IsTerminalStatus (status : String) : Bool :=
  GetTerminalStatuses.any (fun s => status == s)

/-- Union of the three recognized status enumerations (the spec's
"recognized set"). -/
def recognizedStatuses : List String :=
  GetStableStatuses ++ GetTransitionalStatuses ++ GetTerminalStatuses

/-! ### Data model -/

/-- Remote instance as reported by the provider; only the name is used
by the reconciliation core (`provider.Instance`). -/
structure RemoteInstance where
  name : String
deriving DecidableEq

/-- Locally persisted instance row (`providerModel.Instance`): primary
key, name, status string and owning provider. -/
structure Instance where
  id : Nat
  name : String
  status : String
  providerId : Nat
deriving DecidableEq

/-- Port-mapping row (`providerModel.Port`), owned by an instance via
`instance_id`. -/
structure Port where
  instanceId : Nat
deriving DecidableEq

/-- Local database state: the live (not soft-deleted) instance rows and
the port-mapping rows. A soft-deleted row is removed from `instances`,
modelling that GORM's default scope hides it from later queries. -/
structure Storage where
  instances : List Instance
  ports : List Port
deriving DecidableEq

/-! ### Cleanup transaction -/

/-- Failure injection for the three fallible steps of one orphan's
cleanup transaction: the port count, the port-mapping deletion
(`DeleteInstancePortMappingsInTx`) and the instance soft-delete. -/
structure FailSpec where
  countFails : Bool
  portDelFails : Bool
  instDelFails : Bool
deriving DecidableEq

/-- A cleanup transaction commits iff neither the count step nor the
instance soft-delete step fails; a port-deletion failure alone is
swallowed by the code. -/
def txSucceeds (fs : FailSpec) : Bool :=
  !fs.countFails && !fs.instDelFails

/-- Accumulator of the cleanup loop of `syncProviderPortMappings`:
current database state plus the four running outputs
(`cleanedCount`, `cleanedInstances`, `cleanedPorts`,
`cleanedInstanceNames`). -/
structure CleanupAcc where
  storage : Storage
  cleanedCount : Nat
  cleanedInstances : Nat
  cleanedPorts : Nat
  cleanedInstanceNames : List String
deriving DecidableEq

/-- Count of the port mappings owned by `instId` (the
`tx.Model(&Port{}).Where("instance_id = ?").Count` step). -/
def countPorts (st : Storage) (instId : Nat) : Nat :=
  (st.ports.filter (fun p => p.instanceId == instId)).length

/-- Modelled from the spec: `DeleteInstancePortMappingsInTx` is not
under src; per §4.2 it deletes the given instance's port mappings as a
unit (tolerant of zero). -/
def deletePorts (st : Storage) (instId : Nat) : Storage :=
  { st with ports := st.ports.filter (fun p => !(p.instanceId == instId)) }

/-- Soft delete of an instance row by primary key (`tx.Delete`): the
row disappears from the live set future queries see. -/
def softDeleteInstance (st : Storage) (instId : Nat) : Storage :=
  { st with instances := st.instances.filter (fun i => !(i.id == instId)) }

/-- One iteration of the cleanup loop of `syncProviderPortMappings`:
the `ExecuteTransaction` body for one orphan, with commit on success
and rollback of this orphan's changes on failure. Modelled from the
spec where the code is outside src: `ExecuteTransaction` provides the
per-orphan transaction boundary of §4.4/§6 (`withTransaction`), and a
failing port-mapping deletion deletes nothing. Step order follows the
source: count ports, attempt port deletion (failure swallowed), soft
delete the row, then increment the counters and append the name. -/
def cleanupTransaction (fail : Nat → FailSpec) (acc : CleanupAcc)
    (orphanInst : Instance) : CleanupAcc :=
  let fs := fail orphanInst.id
  if fs.countFails then acc
  else
    let portCount := countPorts acc.storage orphanInst.id
    let st1 := if fs.portDelFails then acc.storage
               else deletePorts acc.storage orphanInst.id
    if fs.instDelFails then acc
    else
      { storage := softDeleteInstance st1 orphanInst.id
        cleanedCount := acc.cleanedCount + 1
        cleanedInstances := acc.cleanedInstances + 1
        cleanedPorts := acc.cleanedPorts + portCount
        cleanedInstanceNames := acc.cleanedInstanceNames ++ [orphanInst.name] }

/-- The whole cleanup loop over the orphan list (step 5 of
`syncProviderPortMappings`). -/
def cleanupOrphans (fail : Nat → FailSpec) (st : Storage)
    (orphans : List Instance) : CleanupAcc :=
  orphans.foldl (cleanupTransaction fail) ⟨st, 0, 0, 0, []⟩

/-! ### Drift detection and the local query -/

/-- Local instance query of step 3:
`provider_id = ? AND status NOT IN ('deleted', 'deleting')`. -/
def fetchLocal (st : Storage) (providerId : Nat) : List Instance :=
  st.instances.filter (fun i =>
    i.providerId == providerId
      && !(i.status == "deleted") && !(i.status == "deleting"))

/-- Key set of `remoteInstanceMap` (step 2 builds a map keyed by
instance name; only name membership is ever consulted). -/
def remoteNames (remote : List RemoteInstance) : List String :=
  remote.map RemoteInstance.name

/-- Drift detection of step 4: a local row is orphaned iff its name is
absent from the remote name map. -/
def detectOrphans (remote : List RemoteInstance)
    (locals : List Instance) : List Instance :=
  locals.filter (fun l => !((remoteNames remote).contains l.name))

/-! ### The reconciliation pass -/

/-- Pass-fatal error cases of `syncProviderPortMappings`: provider
lookup or connection check failure, remote listing failure, local
query failure. -/
inductive SyncError where
  | connectivityError
  | listError
  | queryError
deriving DecidableEq

/-- Environment of one pass: whether each external stage succeeds
(`GetProviderByID` together with `CheckProviderConnection`,
`ListInstances`, the local query), the remote listing, and the
injected failures of the per-orphan transaction steps keyed by
instance id. -/
structure SyncEnv where
  connectionOk : Bool
  listOk : Bool
  queryOk : Bool
  remoteInstances : List RemoteInstance
  fail : Nat → FailSpec

/-- Return value of `syncProviderPortMappings` (checked count, cleaned
orphan count, cleaned instance count, cleaned port count, cleaned
names, error), together with the database state after the pass. -/
structure SyncReturn where
  checked : Nat
  cleaned : Nat
  instances : Nat
  ports : Nat
  instanceNames : List String
  errorOut : Option SyncError
  storage : Storage
deriving DecidableEq

/-- The reconciliation pass `syncProviderPortMappings`: connectivity
check, remote listing, local query (each fatal on failure, returning
zero counts and the unchanged database), drift detection, early return
when no orphan is found, otherwise the per-orphan cleanup loop. -/
def syncProviderPortMappings (env : SyncEnv) (st : Storage)
    (providerId : Nat) : SyncReturn :=
  if env.connectionOk = false then
    ⟨0, 0, 0, 0, [], some .connectivityError, st⟩
  else if env.listOk = false then
    ⟨0, 0, 0, 0, [], some .listError, st⟩
  else if env.queryOk = false then
    ⟨0, 0, 0, 0, [], some .queryError, st⟩
  else
    let dbInstances := fetchLocal st providerId
    let orphanedInstances := detectOrphans env.remoteInstances dbInstances
    if orphanedInstances.length = 0 then
      ⟨dbInstances.length, 0, 0, 0, [], none, st⟩
    else
      let acc := cleanupOrphans env.fail st orphanedInstances
      ⟨dbInstances.length, acc.cleanedCount, acc.cleanedInstances,
        acc.cleanedPorts, acc.cleanedInstanceNames, none, acc.storage⟩

/-! ### Completion summary (`executeSyncPortMappingsTask`) -/

/-- Common head of the completion message. -/
def baseMessage (providerName : String) (checked : Nat) : String :=
  "Provider " ++ providerName ++ " 端口映射同步完成：检查了 "
    ++ toString checked ++ " 个实例"

/-- Completion message composition of `executeSyncPortMappingsTask`
(lines 67-77): the cleaned branch is taken iff the cleaned orphan
count is positive, the names sentence iff the name list is nonempty. -/
def completionMessage (providerName : String)
    (checked cleaned cleanedInstances cleanedPorts : Nat)
    (instanceNames : List String) : String :=
  if cleaned > 0 then
    let withCleaned := baseMessage providerName checked
      ++ "，清理了 " ++ toString cleanedInstances ++ " 个孤立实例和 "
      ++ toString cleanedPorts ++ " 个端口映射。"
    if instanceNames.length > 0 then
      withCleaned ++ " 清理的实例：" ++ String.intercalate ", " instanceNames
    else withCleaned
  else
    baseMessage providerName checked ++ "，未发现孤立的端口映射。"

/-- Summary of a pass result, as `executeSyncPortMappingsTask` builds
it from the six return values of `syncProviderPortMappings`. -/
def executeSummary (providerName : String) (r : SyncReturn) : String :=
  completionMessage providerName r.checked r.cleaned r.instances
    r.ports r.instanceNames

/-- Shape of the summary when nothing was cleaned ("no orphans
found"). -/
def noOrphansMessage (providerName : String) (checked : Nat) : String :=
  baseMessage providerName checked ++ "，未发现孤立的端口映射。"

/-- Shape of the summary when at least one orphan was cleaned and the
name list is nonempty. -/
def cleanedMessage (providerName : String)
    (checked cleanedInstances cleanedPorts : Nat)
    (names : List String) : String :=
  baseMessage providerName checked
    ++ "，清理了 " ++ toString cleanedInstances ++ " 个孤立实例和 "
    ++ toString cleanedPorts ++ " 个端口映射。"
    ++ " 清理的实例：" ++ String.intercalate ", " names

/-! ### Helper lemmas: status classifiers -/

theorem IsStableStatus_iff (s : String) :
    IsStableStatus s = true ↔ s ∈ GetStableStatuses := by
  unfold IsStableStatus
  rw [List.any_eq_true]
  constructor
  · rintro ⟨x, hx, hbeq⟩
    rw [beq_iff_eq] at hbeq
    exact hbeq ▸ hx
  · intro h
    exact ⟨s, h, by simp⟩

theorem IsTransitionalStatus_iff (s : String) :
    IsTransitionalStatus s = true ↔ s ∈ GetTransitionalStatuses := by
  unfold IsTransitionalStatus
  rw [List.any_eq_true]
  constructor
  · rintro ⟨x, hx, hbeq⟩
    rw [beq_iff_eq] at hbeq
    exact hbeq ▸ hx
  · intro h
    exact ⟨s, h, by simp⟩

theorem IsTerminalStatus_iff (s : String) :
    IsTerminalStatus s = true ↔ s ∈ GetTerminalStatuses := by
  unfold IsTerminalStatus
  rw [List.any_eq_true]
  constructor
  · rintro ⟨x, hx, hbeq⟩
    rw [beq_iff_eq] at hbeq
    exact hbeq ▸ hx
  · intro h
    exact ⟨s, h, by simp⟩

/-- C10: for every status string in the union of the stable,
transitional and terminal enumerations, exactly one of
`IsStableStatus`, `IsTransitionalStatus`, `IsTerminalStatus` returns
true; for every string outside that union, all three return false. -/
theorem statusClassification_exhaustive_exclusive (s : String) :
    (s ∈ recognizedStatuses →
      ((IsStableStatus s = true ∧ IsTransitionalStatus s = false
          ∧ IsTerminalStatus s = false)
        ∨ (IsStableStatus s = false ∧ IsTransitionalStatus s = true
          ∧ IsTerminalStatus s = false)
        ∨ (IsStableStatus s = false ∧ IsTransitionalStatus s = false
          ∧ IsTerminalStatus s = true)))
    ∧ (s ∉ recognizedStatuses →
        IsStableStatus s = false ∧ IsTransitionalStatus s = false
          ∧ IsTerminalStatus s = false) := by
  constructor
  · intro h
    simp [recognizedStatuses, GetStableStatuses, GetTransitionalStatuses,
      GetTerminalStatuses] at h
    rcases h with h | h | h | h | h | h | h | h <;> subst h <;> decide
  · intro h
    refine ⟨?_, ?_, ?_⟩
    · cases hb : IsStableStatus s with
      | false => rfl
      | true =>
        exact absurd (List.mem_append_left _
          (List.mem_append_left _ ((IsStableStatus_iff s).1 hb))) h
    · cases hb : IsTransitionalStatus s with
      | false => rfl
      | true =>
        exact absurd (List.mem_append_left _
          (List.mem_append_right _ ((IsTransitionalStatus_iff s).1 hb))) h
    · cases hb : IsTerminalStatus s with
      | false => rfl
      | true =>
        exact absurd (List.mem_append_right _
          ((IsTerminalStatus_iff s).1 hb)) h

/-- Witness for C10 at a recognized and an unrecognized status. -/
theorem statusClassification_witness :
    (IsStableStatus "running" = true ∧ IsTransitionalStatus "running" = false
      ∧ IsTerminalStatus "running" = false)
    ∧ (IsStableStatus "unknown" = false
      ∧ IsTransitionalStatus "unknown" = false
      ∧ IsTerminalStatus "unknown" = false) := by
  constructor
  · have h := (statusClassification_exhaustive_exclusive "running").1 (by decide)
    rcases h with h | h | h
    · exact h
    · exact absurd h.1 (by decide)
    · exact absurd h.1 (by decide)
  · exact (statusClassification_exhaustive_exclusive "unknown").2 (by decide)

/-! ### Helper lemmas: drift detection -/

theorem mem_remoteNames (remote : List RemoteInstance) (n : String) :
    ((remoteNames remote).contains n = true) ↔ n ∈ remoteNames remote := by
  simp [List.contains, List.elem_iff]

/-- C1: the drift-detection step classifies a local instance as
orphaned iff its name is not the name of any remote instance; when the
remote names cover every local name the orphan set is empty. -/
theorem detectOrphans_characterization (R : List RemoteInstance)
    (L : List Instance) :
    (∀ l, l ∈ detectOrphans R L
      ↔ l ∈ L ∧ l.name ∉ (remoteNames R))
    ∧ ((∀ l ∈ L, l.name ∈ remoteNames R) → detectOrphans R L = []) := by
  constructor
  · intro l
    simp [detectOrphans, List.mem_filter, remoteNames, List.contains,
      List.elem_iff]
  · intro h
    simp only [detectOrphans]
    rw [List.filter_eq_nil_iff]
    intro l hl
    simp [List.contains, List.elem_iff]
    exact h l hl

/-- Witness for C1: a covered instance is not orphaned, an uncovered
one is. -/
theorem detectOrphans_witness :
    detectOrphans [⟨"a"⟩] [⟨1, "a", "running", 1⟩] = []
    ∧ (⟨2, "b", "running", 1⟩ : Instance)
        ∈ detectOrphans [⟨"a"⟩] [⟨2, "b", "running", 1⟩] := by
  constructor
  · exact (detectOrphans_characterization [⟨"a"⟩] [⟨1, "a", "running", 1⟩]).2
      (by decide)
  · exact ((detectOrphans_characterization [⟨"a"⟩]
      [⟨2, "b", "running", 1⟩]).1 ⟨2, "b", "running", 1⟩).2
      ⟨by decide, by decide⟩

/-! ### Helper lemmas: the cleanup transaction -/

theorem txSucceeds_iff (fs : FailSpec) :
    txSucceeds fs = true
      ↔ fs.countFails = false ∧ fs.instDelFails = false := by
  simp [txSucceeds]

theorem cleanupTransaction_failed (fail : Nat → FailSpec) (acc : CleanupAcc)
    (o : Instance) (h : txSucceeds (fail o.id) = false) :
    cleanupTransaction fail acc o = acc := by
  unfold cleanupTransaction
  cases hc : (fail o.id).countFails with
  | true => simp [hc]
  | false =>
    cases hd : (fail o.id).instDelFails with
    | true => simp [hc, hd]
    | false => rw [txSucceeds, hc, hd] at h; simp at h

theorem cleanupTransaction_succeeded (fail : Nat → FailSpec)
    (acc : CleanupAcc) (o : Instance)
    (hc : (fail o.id).countFails = false)
    (hd : (fail o.id).instDelFails = false) :
    cleanupTransaction fail acc o =
      ⟨softDeleteInstance
          (if (fail o.id).portDelFails then acc.storage
           else deletePorts acc.storage o.id) o.id,
        acc.cleanedCount + 1, acc.cleanedInstances + 1,
        acc.cleanedPorts + countPorts acc.storage o.id,
        acc.cleanedInstanceNames ++ [o.name]⟩ := by
  unfold cleanupTransaction
  simp [hc, hd]

theorem foldl_cleanup_filter (fail : Nat → FailSpec) (l : List Instance)
    (acc : CleanupAcc) :
    l.foldl (cleanupTransaction fail) acc
      = (l.filter (fun o => txSucceeds (fail o.id))).foldl
          (cleanupTransaction fail) acc := by
  induction l generalizing acc with
  | nil => rfl
  | cons o t ih =>
    rw [List.foldl_cons]
    cases hs : txSucceeds (fail o.id) with
    | false =>
      rw [cleanupTransaction_failed fail acc o hs]
      simp [List.filter_cons, hs, ih]
    | true =>
      simp [List.filter_cons, hs, List.foldl_cons, ih]

theorem foldl_cleanup_names (fail : Nat → FailSpec) (l : List Instance)
    (acc : CleanupAcc) :
    (l.foldl (cleanupTransaction fail) acc).cleanedInstanceNames
      = acc.cleanedInstanceNames
        ++ (l.filter (fun o => txSucceeds (fail o.id))).map Instance.name := by
  induction l generalizing acc with
  | nil => simp
  | cons o t ih =>
    rw [List.foldl_cons]
    cases hs : txSucceeds (fail o.id) with
    | false =>
      rw [cleanupTransaction_failed fail acc o hs, ih acc]
      simp [List.filter_cons, hs]
    | true =>
      obtain ⟨hc, hd⟩ := (txSucceeds_iff _).1 hs
      rw [cleanupTransaction_succeeded fail acc o hc hd, ih _]
      simp [List.filter_cons, hs]

theorem foldl_cleanup_cleanedCount (fail : Nat → FailSpec)
    (l : List Instance) (acc : CleanupAcc) :
    (l.foldl (cleanupTransaction fail) acc).cleanedCount
      = acc.cleanedCount
        + (l.filter (fun o => txSucceeds (fail o.id))).length := by
  induction l generalizing acc with
  | nil => simp
  | cons o t ih =>
    rw [List.foldl_cons]
    cases hs : txSucceeds (fail o.id) with
    | false =>
      rw [cleanupTransaction_failed fail acc o hs, ih acc]
      simp [List.filter_cons, hs]
    | true =>
      obtain ⟨hc, hd⟩ := (txSucceeds_iff _).1 hs
      rw [cleanupTransaction_succeeded fail acc o hc hd, ih _]
      simp [List.filter_cons, hs]
      omega

theorem foldl_cleanup_cleanedInstances (fail : Nat → FailSpec)
    (l : List Instance) (acc : CleanupAcc) :
    (l.foldl (cleanupTransaction fail) acc).cleanedInstances
      = acc.cleanedInstances
        + (l.filter (fun o => txSucceeds (fail o.id))).length := by
  induction l generalizing acc with
  | nil => simp
  | cons o t ih =>
    rw [List.foldl_cons]
    cases hs : txSucceeds (fail o.id) with
    | false =>
      rw [cleanupTransaction_failed fail acc o hs, ih acc]
      simp [List.filter_cons, hs]
    | true =>
      obtain ⟨hc, hd⟩ := (txSucceeds_iff _).1 hs
      rw [cleanupTransaction_succeeded fail acc o hc hd, ih _]
      simp [List.filter_cons, hs]
      omega

theorem mem_foldl_cleanup_instances (fail : Nat → FailSpec)
    (l : List Instance) (acc : CleanupAcc) (i : Instance) :
    i ∈ (l.foldl (cleanupTransaction fail) acc).storage.instances
      ↔ i ∈ acc.storage.instances
        ∧ ∀ o ∈ l, txSucceeds (fail o.id) = true → i.id ≠ o.id := by
  induction l generalizing acc with
  | nil => simp
  | cons o t ih =>
    rw [List.foldl_cons]
    cases hs : txSucceeds (fail o.id) with
    | false =>
      rw [cleanupTransaction_failed fail acc o hs, ih acc]
      simp [hs]
    | true =>
      obtain ⟨hc, hd⟩ := (txSucceeds_iff _).1 hs
      rw [cleanupTransaction_succeeded fail acc o hc hd, ih _]
      cases hp : (fail o.id).portDelFails with
      | true =>
        simp [hp, softDeleteInstance, List.mem_filter, hs]
        tauto
      | false =>
        simp [hp, softDeleteInstance, deletePorts, List.mem_filter, hs]
        tauto

theorem foldl_cleanup_ports_sublist (fail : Nat → FailSpec)
    (l : List Instance) (acc : CleanupAcc) :
    (l.foldl (cleanupTransaction fail) acc).storage.ports.Sublist
      acc.storage.ports := by
  induction l generalizing acc with
  | nil => simp
  | cons o t ih =>
    rw [List.foldl_cons]
    cases hs : txSucceeds (fail o.id) with
    | false =>
      rw [cleanupTransaction_failed fail acc o hs]
      exact ih acc
    | true =>
      obtain ⟨hc, hd⟩ := (txSucceeds_iff _).1 hs
      rw [cleanupTransaction_succeeded fail acc o hc hd]
      refine (ih _).trans ?_
      cases hp : (fail o.id).portDelFails with
      | true => simp [hp, softDeleteInstance]
      | false =>
        simp only [hp, softDeleteInstance, deletePorts, Bool.false_eq_true,
          if_false]
        exact List.filter_sublist _

theorem length_filter_add_length_filter_not {α : Type} (p : α → Bool)
    (l : List α) :
    (l.filter p).length + (l.filter (fun a => !(p a))).length
      = l.length := by
  induction l with
  | nil => rfl
  | cons a t ih =>
    cases h : p a <;> simp [List.filter_cons, h] <;> omega

theorem foldl_cleanup_ports_length (fail : Nat → FailSpec)
    (l : List Instance) (acc : CleanupAcc)
    (hp : ∀ o ∈ l, (fail o.id).portDelFails = false) :
    (l.foldl (cleanupTransaction fail) acc).cleanedPorts
        + (l.foldl (cleanupTransaction fail) acc).storage.ports.length
      = acc.cleanedPorts + acc.storage.ports.length := by
  induction l generalizing acc with
  | nil => rfl
  | cons o t ih =>
    rw [List.foldl_cons]
    cases hs : txSucceeds (fail o.id) with
    | false =>
      rw [cleanupTransaction_failed fail acc o hs]
      exact ih acc (fun q hq => hp q (List.mem_cons_of_mem _ hq))
    | true =>
      obtain ⟨hc, hd⟩ := (txSucceeds_iff _).1 hs
      have hpo := hp o (List.mem_cons_self _ _)
      rw [cleanupTransaction_succeeded fail acc o hc hd]
      rw [ih _ (fun q hq => hp q (List.mem_cons_of_mem _ hq))]
      have hlen := length_filter_add_length_filter_not
        (fun q : Port => q.instanceId == o.id) acc.storage.ports
      simp [hpo, softDeleteInstance, deletePorts, countPorts]
      omega

/-! ### Claim theorems: cleanup loop -/

/-- C2: the cleanup loop is per-orphan isolated: a failure of one
orphan's transaction never prevents the others from being processed —
the cleaned names and counts are exactly those of the orphans whose
own transaction succeeds, independently of sibling failures, and every
successful orphan's row is durably removed (committed). -/
theorem cleanup_partial_failure_isolation (fail : Nat → FailSpec)
    (st : Storage) (orphans : List Instance) :
    (cleanupOrphans fail st orphans).cleanedInstanceNames
        = (orphans.filter (fun o => txSucceeds (fail o.id))).map Instance.name
    ∧ (cleanupOrphans fail st orphans).cleanedCount
        = (orphans.filter (fun o => txSucceeds (fail o.id))).length
    ∧ (cleanupOrphans fail st orphans).cleanedInstances
        = (orphans.filter (fun o => txSucceeds (fail o.id))).length
    ∧ ∀ o ∈ orphans, txSucceeds (fail o.id) = true →
        ∀ i ∈ (cleanupOrphans fail st orphans).storage.instances,
          i.id ≠ o.id := by
  refine ⟨?_, ?_, ?_, ?_⟩
  · simpa [cleanupOrphans] using
      foldl_cleanup_names fail orphans ⟨st, 0, 0, 0, []⟩
  · simpa [cleanupOrphans] using
      foldl_cleanup_cleanedCount fail orphans ⟨st, 0, 0, 0, []⟩
  · simpa [cleanupOrphans] using
      foldl_cleanup_cleanedInstances fail orphans ⟨st, 0, 0, 0, []⟩
  · intro o ho hso i hi
    simp only [cleanupOrphans] at hi
    exact (mem_foldl_cleanup_instances fail orphans
      ⟨st, 0, 0, 0, []⟩ i).1 hi |>.2 o ho hso

/-- Witness for C2: orphan `x` fails at the instance delete, orphan
`y` still commits and is counted. -/
theorem cleanup_partial_failure_isolation_witness :
    (cleanupOrphans
        (fun n => if n == 1 then ⟨false, false, true⟩
                  else ⟨false, false, false⟩)
        ⟨[⟨1, "x", "running", 1⟩, ⟨2, "y", "running", 1⟩], [⟨1⟩, ⟨2⟩]⟩
        [⟨1, "x", "running", 1⟩, ⟨2, "y", "running", 1⟩]).cleanedInstanceNames
      = ["y"]
    ∧ (cleanupOrphans
        (fun n => if n == 1 then ⟨false, false, true⟩
                  else ⟨false, false, false⟩)
        ⟨[⟨1, "x", "running", 1⟩, ⟨2, "y", "running", 1⟩], [⟨1⟩, ⟨2⟩]⟩
        [⟨1, "x", "running", 1⟩, ⟨2, "y", "running", 1⟩]).cleanedCount
      = 1 := by
  have h := cleanup_partial_failure_isolation
    (fun n => if n == 1 then ⟨false, false, true⟩ else ⟨false, false, false⟩)
    ⟨[⟨1, "x", "running", 1⟩, ⟨2, "y", "running", 1⟩], [⟨1⟩, ⟨2⟩]⟩
    [⟨1, "x", "running", 1⟩, ⟨2, "y", "running", 1⟩]
  refine ⟨?_, ?_⟩
  · rw [h.1]; decide
  · rw [h.2.1]; decide

/-- C3: an orphan whose transaction fails at the instance soft-delete
step is rolled back in full: its name never enters the cleaned list
(no same-named orphan succeeding), the whole loop result equals the
result of processing only the successful orphans — so neither the
counts nor the port total are increased for it — and every storage row
carrying its id is still present afterward. -/
theorem failed_instance_delete_rolls_back (fail : Nat → FailSpec)
    (st : Storage) (orphans : List Instance) (o : Instance)
    (hmem : o ∈ orphans)
    (hc : (fail o.id).countFails = false)
    (hd : (fail o.id).instDelFails = true)
    (hname : ∀ p ∈ orphans, p.name = o.name → txSucceeds (fail p.id) = false) :
    o.name ∉ (cleanupOrphans fail st orphans).cleanedInstanceNames
    ∧ cleanupOrphans fail st orphans
        = cleanupOrphans fail st
            (orphans.filter (fun p => txSucceeds (fail p.id)))
    ∧ o ∉ orphans.filter (fun p => txSucceeds (fail p.id))
    ∧ ∀ i ∈ st.instances, i.id = o.id
        → i ∈ (cleanupOrphans fail st orphans).storage.instances := by
  have hso : txSucceeds (fail o.id) = false := by
    simp [txSucceeds, hd]
  refine ⟨?_, ?_, ?_, ?_⟩
  · intro habs
    simp only [cleanupOrphans] at habs
    rw [foldl_cleanup_names] at habs
    simp only [List.nil_append, List.mem_map, List.mem_filter] at habs
    obtain ⟨p, ⟨hp1, hp2⟩, hp3⟩ := habs
    rw [hname p hp1 hp3] at hp2
    exact absurd hp2 (by simp)
  · simp only [cleanupOrphans]
    exact foldl_cleanup_filter fail orphans _
  · intro habs
    rw [List.mem_filter] at habs
    rw [hso] at habs
    exact absurd habs.2 (by simp)
  · intro i hi hid
    simp only [cleanupOrphans]
    rw [mem_foldl_cleanup_instances]
    refine ⟨hi, ?_⟩
    intro p hp hsp heq
    rw [hid] at heq
    rw [← heq] at hsp
    rw [hsp] at hso
    exact absurd hso (by simp)

/-- Witness for C3: the failing orphan `x` stays in storage and out of
the cleaned list. -/
theorem failed_instance_delete_rolls_back_witness :
    "x" ∉ (cleanupOrphans
        (fun n => if n == 1 then ⟨false, false, true⟩
                  else ⟨false, false, false⟩)
        ⟨[⟨1, "x", "running", 1⟩, ⟨2, "y", "running", 1⟩], [⟨1⟩, ⟨2⟩]⟩
        [⟨1, "x", "running", 1⟩, ⟨2, "y", "running", 1⟩]).cleanedInstanceNames
    ∧ (⟨1, "x", "running", 1⟩ : Instance)
        ∈ (cleanupOrphans
            (fun n => if n == 1 then ⟨false, false, true⟩
                      else ⟨false, false, false⟩)
            ⟨[⟨1, "x", "running", 1⟩, ⟨2, "y", "running", 1⟩], [⟨1⟩, ⟨2⟩]⟩
            [⟨1, "x", "running", 1⟩,
              ⟨2, "y", "running", 1⟩]).storage.instances := by
  have h := failed_instance_delete_rolls_back
    (fun n => if n == 1 then ⟨false, false, true⟩ else ⟨false, false, false⟩)
    ⟨[⟨1, "x", "running", 1⟩, ⟨2, "y", "running", 1⟩], [⟨1⟩, ⟨2⟩]⟩
    [⟨1, "x", "running", 1⟩, ⟨2, "y", "running", 1⟩]
    ⟨1, "x", "running", 1⟩ (by decide) (by decide) (by decide) (by decide)
  exact ⟨h.1, h.2.2.2 ⟨1, "x", "running", 1⟩ (by decide) (by decide)⟩

/-- C4: a failing port-mapping deletion is recovered inside the same
transaction: the row is still soft-deleted, the orphan is counted and
named, the pre-counted port total is added while the port rows stay,
and a healthy pass never surfaces any error. -/
theorem portDeletion_failure_recovered (fail : Nat → FailSpec)
    (acc : CleanupAcc) (o : Instance) (env : SyncEnv) (st : Storage)
    (providerId : Nat)
    (hc : (fail o.id).countFails = false)
    (hp : (fail o.id).portDelFails = true)
    (hd : (fail o.id).instDelFails = false)
    (h1 : env.connectionOk = true) (h2 : env.listOk = true)
    (h3 : env.queryOk = true) :
    (cleanupTransaction fail acc o).cleanedInstances
        = acc.cleanedInstances + 1
    ∧ (cleanupTransaction fail acc o).cleanedCount = acc.cleanedCount + 1
    ∧ (cleanupTransaction fail acc o).cleanedInstanceNames
        = acc.cleanedInstanceNames ++ [o.name]
    ∧ (cleanupTransaction fail acc o).storage.instances
        = acc.storage.instances.filter (fun i => !(i.id == o.id))
    ∧ (cleanupTransaction fail acc o).storage.ports = acc.storage.ports
    ∧ (syncProviderPortMappings env st providerId).errorOut = none := by
  rw [cleanupTransaction_succeeded fail acc o hc hd]
  refine ⟨rfl, rfl, rfl, ?_, ?_, ?_⟩
  · simp [hp, softDeleteInstance]
  · simp [hp, softDeleteInstance]
  · unfold syncProviderPortMappings
    by_cases hlen :
      (detectOrphans env.remoteInstances (fetchLocal st providerId)).length
        = 0 <;> simp [h1, h2, h3, hlen]

/-- Witness for C4: the port deletion of orphan `x` fails but `x` is
still cleaned, and the healthy pass reports no error. -/
theorem portDeletion_failure_recovered_witness :
    (cleanupTransaction (fun _ => ⟨false, true, false⟩)
        ⟨⟨[⟨1, "x", "running", 1⟩], [⟨1⟩]⟩, 0, 0, 0, []⟩
        ⟨1, "x", "running", 1⟩).cleanedInstanceNames = ["x"]
    ∧ (cleanupTransaction (fun _ => ⟨false, true, false⟩)
        ⟨⟨[⟨1, "x", "running", 1⟩], [⟨1⟩]⟩, 0, 0, 0, []⟩
        ⟨1, "x", "running", 1⟩).storage.ports = [⟨1⟩]
    ∧ (syncProviderPortMappings
        ⟨true, true, true, [], fun _ => ⟨false, true, false⟩⟩
        ⟨[⟨1, "x", "running", 1⟩], [⟨1⟩]⟩ 1).errorOut = none := by
  have h := portDeletion_failure_recovered (fun _ => ⟨false, true, false⟩)
    ⟨⟨[⟨1, "x", "running", 1⟩], [⟨1⟩]⟩, 0, 0, 0, []⟩
    ⟨1, "x", "running", 1⟩
    ⟨true, true, true, [], fun _ => ⟨false, true, false⟩⟩
    ⟨[⟨1, "x", "running", 1⟩], [⟨1⟩]⟩ 1
    (by decide) (by decide) (by decide) rfl rfl rfl
  refine ⟨?_, ?_, h.2.2.2.2.2⟩
  · simp [h.2.2.1]
  · simp [h.2.2.2.2.1]

/-- C5: a failure of the provider connection check, the remote
listing, or the local query is fatal: the pass returns an error, all
counts zero, an empty name list, and leaves the database untouched —
no cleanup transaction is attempted. -/
theorem fatal_stage_failure_no_partial_results (env : SyncEnv)
    (st : Storage) (providerId : Nat)
    (h : env.connectionOk = false ∨ env.listOk = false
      ∨ env.queryOk = false) :
    (syncProviderPortMappings env st providerId).errorOut ≠ none
    ∧ (syncProviderPortMappings env st providerId).checked = 0
    ∧ (syncProviderPortMappings env st providerId).cleaned = 0
    ∧ (syncProviderPortMappings env st providerId).instances = 0
    ∧ (syncProviderPortMappings env st providerId).ports = 0
    ∧ (syncProviderPortMappings env st providerId).instanceNames = []
    ∧ (syncProviderPortMappings env st providerId).storage = st := by
  unfold syncProviderPortMappings
  rcases h with h | h | h
  · simp [h]
  · cases hc : env.connectionOk <;> simp [h, hc]
  · cases hc : env.connectionOk <;> cases hl : env.listOk <;>
      simp [h, hc, hl]

/-- Witness for C5: an unreachable provider yields the error record. -/
theorem fatal_stage_failure_no_partial_results_witness :
    (syncProviderPortMappings
        ⟨false, true, true, [], fun _ => ⟨false, false, false⟩⟩
        ⟨[⟨1, "x", "running", 1⟩], [⟨1⟩]⟩ 1).errorOut ≠ none
    ∧ (syncProviderPortMappings
        ⟨false, true, true, [], fun _ => ⟨false, false, false⟩⟩
        ⟨[⟨1, "x", "running", 1⟩], [⟨1⟩]⟩ 1).storage
      = ⟨[⟨1, "x", "running", 1⟩], [⟨1⟩]⟩ := by
  have h := fatal_stage_failure_no_partial_results
    ⟨false, true, true, [], fun _ => ⟨false, false, false⟩⟩
    ⟨[⟨1, "x", "running", 1⟩], [⟨1⟩]⟩ 1 (Or.inl rfl)
  exact ⟨h.1, h.2.2.2.2.2.2⟩

/-! ### Helper lemmas: the whole pass -/

theorem sync_no_orphans (env : SyncEnv) (st : Storage) (providerId : Nat)
    (h1 : env.connectionOk = true) (h2 : env.listOk = true)
    (h3 : env.queryOk = true)
    (h0 : detectOrphans env.remoteInstances (fetchLocal st providerId) = []) :
    syncProviderPortMappings env st providerId
      = ⟨(fetchLocal st providerId).length, 0, 0, 0, [], none, st⟩ := by
  unfold syncProviderPortMappings
  simp [h1, h2, h3, h0]

theorem sync_with_orphans (env : SyncEnv) (st : Storage) (providerId : Nat)
    (h1 : env.connectionOk = true) (h2 : env.listOk = true)
    (h3 : env.queryOk = true)
    (hlen : ¬ (detectOrphans env.remoteInstances
        (fetchLocal st providerId)).length = 0) :
    syncProviderPortMappings env st providerId
      = ⟨(fetchLocal st providerId).length,
          (cleanupOrphans env.fail st (detectOrphans env.remoteInstances
            (fetchLocal st providerId))).cleanedCount,
          (cleanupOrphans env.fail st (detectOrphans env.remoteInstances
            (fetchLocal st providerId))).cleanedInstances,
          (cleanupOrphans env.fail st (detectOrphans env.remoteInstances
            (fetchLocal st providerId))).cleanedPorts,
          (cleanupOrphans env.fail st (detectOrphans env.remoteInstances
            (fetchLocal st providerId))).cleanedInstanceNames,
          none,
          (cleanupOrphans env.fail st (detectOrphans env.remoteInstances
            (fetchLocal st providerId))).storage⟩ := by
  unfold syncProviderPortMappings
  simp [h1, h2, h3, hlen]

theorem cleanupOrphans_names_length (fail : Nat → FailSpec) (st : Storage)
    (orphans : List Instance) :
    (cleanupOrphans fail st orphans).cleanedInstanceNames.length
      = (cleanupOrphans fail st orphans).cleanedCount := by
  simp only [cleanupOrphans]
  rw [foldl_cleanup_names, foldl_cleanup_cleanedCount]
  simp

/-! ### Claim theorems: local fetch (C6) -/

/-- C6 counterexample: an instance with the terminal status "failed"
is still fetched and checked by the pass, so the fetched set does not
exclude every terminal-status instance. -/
theorem fetchLocal_includes_failed_counterexample :
    (⟨1, "a", "failed", 1⟩ : Instance)
        ∈ fetchLocal ⟨[⟨1, "a", "failed", 1⟩], []⟩ 1
    ∧ IsTerminalStatus "failed" = true
    ∧ "failed" ∈ GetTerminalStatuses := by
  exact ⟨by decide, by decide, by decide⟩

/-- C6 amended: the fetched set is exactly the provider's locally
tracked instances whose status is neither "deleted" nor "deleting";
the terminal status "failed" is not excluded. -/
theorem fetchLocal_characterization (st : Storage) (providerId : Nat) :
    ∀ i, i ∈ fetchLocal st providerId
      ↔ i ∈ st.instances ∧ i.providerId = providerId
        ∧ i.status ≠ "deleted" ∧ i.status ≠ "deleting" := by
  intro i
  simp [fetchLocal, List.mem_filter]
  tauto

/-- Witness for the amended C6: a running instance of the provider is
fetched. -/
theorem fetchLocal_characterization_witness :
    (⟨1, "a", "running", 1⟩ : Instance)
      ∈ fetchLocal ⟨[⟨1, "a", "running", 1⟩], []⟩ 1 := by
  exact (fetchLocal_characterization ⟨[⟨1, "a", "running", 1⟩], []⟩ 1
    ⟨1, "a", "running", 1⟩).2 ⟨by decide, by decide, by decide, by decide⟩

/-! ### Claim theorems: port-mapping count (C7) -/

/-- C7 counterexample: a pass that returns without error, in which the
port-mapping deletion of the single orphan fails, reports one cleaned
port mapping while zero port rows were removed from storage. -/
theorem ports_over_count_counterexample :
    (syncProviderPortMappings
        ⟨true, true, true, [], fun _ => ⟨false, true, false⟩⟩
        ⟨[⟨1, "a", "running", 1⟩], [⟨1⟩]⟩ 1).errorOut = none
    ∧ (syncProviderPortMappings
        ⟨true, true, true, [], fun _ => ⟨false, true, false⟩⟩
        ⟨[⟨1, "a", "running", 1⟩], [⟨1⟩]⟩ 1).ports = 1
    ∧ (syncProviderPortMappings
        ⟨true, true, true, [], fun _ => ⟨false, true, false⟩⟩
        ⟨[⟨1, "a", "running", 1⟩], [⟨1⟩]⟩ 1).storage.ports = [⟨1⟩]
    ∧ ¬ ((syncProviderPortMappings
        ⟨true, true, true, [], fun _ => ⟨false, true, false⟩⟩
        ⟨[⟨1, "a", "running", 1⟩], [⟨1⟩]⟩ 1).ports
      = (⟨[⟨1, "a", "running", 1⟩], [⟨1⟩]⟩ : Storage).ports.length
        - (syncProviderPortMappings
            ⟨true, true, true, [], fun _ => ⟨false, true, false⟩⟩
            ⟨[⟨1, "a", "running", 1⟩], [⟨1⟩]⟩ 1).storage.ports.length) := by
  exact ⟨by decide, by decide, by decide, by decide⟩

/-- C7 amended: when no port-mapping deletion sub-step fails, the
returned port-mapping count equals the number of port rows removed
from storage by the pass: the final port rows are a sublist of the
initial ones and the count accounts exactly for the difference. -/
theorem ports_count_equals_removed (env : SyncEnv) (st : Storage)
    (providerId : Nat)
    (hp : ∀ n, (env.fail n).portDelFails = false) :
    (syncProviderPortMappings env st providerId).ports
        + (syncProviderPortMappings env st providerId).storage.ports.length
      = st.ports.length
    ∧ (syncProviderPortMappings env st providerId).storage.ports.Sublist
        st.ports := by
  unfold syncProviderPortMappings
  cases hc : env.connectionOk with
  | false => simp [hc]
  | true =>
    cases hl : env.listOk with
    | false => simp [hc, hl]
    | true =>
      cases hq : env.queryOk with
      | false => simp [hc, hl, hq]
      | true =>
        by_cases hlen : (detectOrphans env.remoteInstances
            (fetchLocal st providerId)).length = 0
        · simp [hc, hl, hq, hlen]
        · simp only [hc, hl, hq, hlen, Bool.true_eq_false, if_false,
            if_neg, ite_false]
          constructor
          · simpa [cleanupOrphans] using foldl_cleanup_ports_length env.fail
              (detectOrphans env.remoteInstances (fetchLocal st providerId))
              ⟨st, 0, 0, 0, []⟩ (fun o _ => hp o.id)
          · simpa [cleanupOrphans] using foldl_cleanup_ports_sublist env.fail
              (detectOrphans env.remoteInstances (fetchLocal st providerId))
              ⟨st, 0, 0, 0, []⟩

/-- Witness for the amended C7 on a clean two-port run. -/
theorem ports_count_equals_removed_witness :
    (syncProviderPortMappings
        ⟨true, true, true, [], fun _ => ⟨false, false, false⟩⟩
        ⟨[⟨1, "a", "running", 1⟩], [⟨1⟩, ⟨2⟩]⟩ 1).ports
      + (syncProviderPortMappings
        ⟨true, true, true, [], fun _ => ⟨false, false, false⟩⟩
        ⟨[⟨1, "a", "running", 1⟩], [⟨1⟩, ⟨2⟩]⟩ 1).storage.ports.length
      = 2 := by
  exact (ports_count_equals_removed
    ⟨true, true, true, [], fun _ => ⟨false, false, false⟩⟩
    ⟨[⟨1, "a", "running", 1⟩], [⟨1⟩, ⟨2⟩]⟩ 1 (fun _ => rfl)).1

/-! ### Helper lemmas: summary strings (C8) -/

theorem string_append_left_cancel {s t u : String} (h : s ++ t = s ++ u) :
    t = u := by
  have h2 := congrArg String.data h
  rw [String.data_append, String.data_append] at h2
  have h3 := List.append_cancel_left h2
  cases t
  cases u
  simp only at h3
  rw [h3]

theorem cleaned_tail_ne (r : String) :
    ("，清理了 " ++ r : String) ≠ "，未发现孤立的端口映射。" := by
  intro h
  have h2 := congrArg String.data h
  rw [String.data_append] at h2
  rw [show ("，清理了 " : String).data = ['，', '清', '理', '了', ' ']
    from rfl] at h2
  rw [show ("，未发现孤立的端口映射。" : String).data
      = ['，', '未', '发', '现', '孤', '立', '的', '端', '口', '映', '射', '。']
    from rfl] at h2
  simp at h2

theorem completionMessage_zero (pn : String) (checked ci cp : Nat)
    (names : List String) :
    completionMessage pn checked 0 ci cp names = noOrphansMessage pn checked := by
  simp [completionMessage, noOrphansMessage, baseMessage]

theorem completionMessage_pos (pn : String) (checked cl ci cp : Nat)
    (names : List String) (hcl : 0 < cl) (hn : 0 < names.length) :
    completionMessage pn checked cl ci cp names
      = cleanedMessage pn checked ci cp names := by
  simp [completionMessage, cleanedMessage, hcl, hn]

theorem completionMessage_positive_ne (pn : String) (checked cl ci cp : Nat)
    (names : List String) (hcl : 0 < cl) :
    completionMessage pn checked cl ci cp names
      ≠ noOrphansMessage pn checked := by
  simp only [completionMessage, noOrphansMessage, baseMessage]
  rw [if_pos hcl]
  by_cases hn : names.length > 0
  · rw [if_pos hn]
    intro h
    simp only [String.append_assoc] at h
    exact cleaned_tail_ne _
      (string_append_left_cancel (string_append_left_cancel
        (string_append_left_cancel (string_append_left_cancel
          (string_append_left_cancel h)))))
  · rw [if_neg hn]
    intro h
    simp only [String.append_assoc] at h
    exact cleaned_tail_ne _
      (string_append_left_cancel (string_append_left_cancel
        (string_append_left_cancel (string_append_left_cancel
          (string_append_left_cancel h)))))

/-! ### Claim theorems: completion summary (C8) -/

/-- C8 counterexample: a pass whose single detected orphan fails to
clean produces the "no orphans found" summary although the detected
orphan set is nonempty. -/
theorem summary_no_orphans_counterexample :
    executeSummary "p"
        (syncProviderPortMappings
          ⟨true, true, true, [], fun _ => ⟨false, false, true⟩⟩
          ⟨[⟨1, "b", "running", 1⟩], []⟩ 1)
      = noOrphansMessage "p" 1
    ∧ detectOrphans
        (⟨true, true, true, [], fun _ => ⟨false, false, true⟩⟩ :
          SyncEnv).remoteInstances
        (fetchLocal ⟨[⟨1, "b", "running", 1⟩], []⟩ 1) ≠ [] := by
  exact ⟨rfl, by decide⟩

/-- C8 amended: the completion summary states that no orphans were
found exactly when the pass cleaned zero orphans — which the empty
orphan set implies, but which also happens when every detected
orphan's cleanup fails; when at least one orphan was cleaned the
summary reports the cleaned instance and port-mapping counts and the
cleaned names. -/
theorem summary_states_no_orphans_iff_nothing_cleaned (env : SyncEnv)
    (st : Storage) (providerId : Nat) (providerName : String)
    (h1 : env.connectionOk = true) (h2 : env.listOk = true)
    (h3 : env.queryOk = true) :
    (executeSummary providerName (syncProviderPortMappings env st providerId)
        = noOrphansMessage providerName
            (syncProviderPortMappings env st providerId).checked
      ↔ (syncProviderPortMappings env st providerId).cleaned = 0)
    ∧ (detectOrphans env.remoteInstances (fetchLocal st providerId) = []
        → (syncProviderPortMappings env st providerId).cleaned = 0)
    ∧ (0 < (syncProviderPortMappings env st providerId).cleaned
        → executeSummary providerName
            (syncProviderPortMappings env st providerId)
          = cleanedMessage providerName
              (syncProviderPortMappings env st providerId).checked
              (syncProviderPortMappings env st providerId).instances
              (syncProviderPortMappings env st providerId).ports
              (syncProviderPortMappings env st providerId).instanceNames) := by
  refine ⟨⟨?_, ?_⟩, ?_, ?_⟩
  · intro heq
    by_contra hne
    exact completionMessage_positive_ne providerName
      (syncProviderPortMappings env st providerId).checked
      (syncProviderPortMappings env st providerId).cleaned
      (syncProviderPortMappings env st providerId).instances
      (syncProviderPortMappings env st providerId).ports
      (syncProviderPortMappings env st providerId).instanceNames
      (Nat.pos_of_ne_zero hne) heq
  · intro h0
    show completionMessage providerName _ _ _ _ _ = _
    rw [h0]
    exact completionMessage_zero _ _ _ _ _
  · intro h0
    rw [sync_no_orphans env st providerId h1 h2 h3 h0]
  · intro hcl
    by_cases hlen : (detectOrphans env.remoteInstances
        (fetchLocal st providerId)).length = 0
    · rw [sync_no_orphans env st providerId h1 h2 h3
        (List.length_eq_zero.mp hlen)] at hcl
      exact absurd hcl (by simp)
    · have hn : 0 < (syncProviderPortMappings env st
          providerId).instanceNames.length := by
        rw [sync_with_orphans env st providerId h1 h2 h3 hlen] at hcl ⊢
        simp only at hcl ⊢
        rw [cleanupOrphans_names_length]
        exact hcl
      exact completionMessage_pos providerName
        (syncProviderPortMappings env st providerId).checked
        (syncProviderPortMappings env st providerId).cleaned
        (syncProviderPortMappings env st providerId).instances
        (syncProviderPortMappings env st providerId).ports
        (syncProviderPortMappings env st providerId).instanceNames
        hcl hn

/-- Witness for the amended C8: an orphan-free pass produces the
"no orphans found" summary. -/
theorem summary_states_no_orphans_witness :
    executeSummary "p"
        (syncProviderPortMappings
          ⟨true, true, true, [⟨"a"⟩], fun _ => ⟨false, false, false⟩⟩
          ⟨[⟨1, "a", "running", 1⟩], []⟩ 1)
      = noOrphansMessage "p" 1 := by
  have h := (summary_states_no_orphans_iff_nothing_cleaned
    ⟨true, true, true, [⟨"a"⟩], fun _ => ⟨false, false, false⟩⟩
    ⟨[⟨1, "a", "running", 1⟩], []⟩ 1 "p" rfl rfl rfl).1.2 (by decide)
  exact h

/-! ### Claim theorems: idempotence (C9) -/

/-- C9: after a pass in which every detected orphan was cleaned
successfully, re-running the pass against the same remote state
detects zero orphans and cleans nothing: the cleaned rows are excluded
from the second fetch, and the second pass leaves storage unchanged. -/
theorem pass_idempotent (env : SyncEnv) (st : Storage) (providerId : Nat)
    (h1 : env.connectionOk = true) (h2 : env.listOk = true)
    (h3 : env.queryOk = true)
    (hsucc : ∀ o ∈ detectOrphans env.remoteInstances
        (fetchLocal st providerId), txSucceeds (env.fail o.id) = true) :
    detectOrphans env.remoteInstances
        (fetchLocal (syncProviderPortMappings env st providerId).storage
          providerId) = []
    ∧ syncProviderPortMappings env
        (syncProviderPortMappings env st providerId).storage providerId
      = ⟨(fetchLocal (syncProviderPortMappings env st providerId).storage
            providerId).length, 0, 0, 0, [], none,
          (syncProviderPortMappings env st providerId).storage⟩ := by
  have hA : detectOrphans env.remoteInstances
      (fetchLocal (syncProviderPortMappings env st providerId).storage
        providerId) = [] := by
    by_cases hlen : (detectOrphans env.remoteInstances
        (fetchLocal st providerId)).length = 0
    · rw [sync_no_orphans env st providerId h1 h2 h3
        (List.length_eq_zero.mp hlen)]
      exact List.length_eq_zero.mp hlen
    · rw [sync_with_orphans env st providerId h1 h2 h3 hlen]
      simp only [detectOrphans]
      rw [List.filter_eq_nil_iff]
      intro i hi habs
      unfold fetchLocal at hi
      rw [List.mem_filter] at hi
      obtain ⟨hi1, hi2⟩ := hi
      simp only [cleanupOrphans] at hi1
      have hm := (mem_foldl_cleanup_instances env.fail
        (detectOrphans env.remoteInstances (fetchLocal st providerId))
        ⟨st, 0, 0, 0, []⟩ i).1 hi1
      have hifetch : i ∈ fetchLocal st providerId :=
        List.mem_filter.mpr ⟨hm.1, hi2⟩
      have hiorph : i ∈ detectOrphans env.remoteInstances
          (fetchLocal st providerId) := by
        simp only [detectOrphans]
        exact List.mem_filter.mpr ⟨hifetch, habs⟩
      exact absurd rfl (hm.2 i hiorph (hsucc i hiorph))
  exact ⟨hA, sync_no_orphans env _ providerId h1 h2 h3 hA⟩

/-- Witness for C9: one orphan cleaned, the immediate re-run is a
no-op. -/
theorem pass_idempotent_witness :
    syncProviderPortMappings
        ⟨true, true, true, [], fun _ => ⟨false, false, false⟩⟩
        (syncProviderPortMappings
          ⟨true, true, true, [], fun _ => ⟨false, false, false⟩⟩
          ⟨[⟨1, "b", "running", 1⟩], [⟨1⟩]⟩ 1).storage 1
      = ⟨0, 0, 0, 0, [], none,
          (syncProviderPortMappings
            ⟨true, true, true, [], fun _ => ⟨false, false, false⟩⟩
            ⟨[⟨1, "b", "running", 1⟩], [⟨1⟩]⟩ 1).storage⟩ := by
  have h := (pass_idempotent
    ⟨true, true, true, [], fun _ => ⟨false, false, false⟩⟩
    ⟨[⟨1, "b", "running", 1⟩], [⟨1⟩]⟩ 1 rfl rfl rfl
    (by decide)).2
  rw [h]
  decide

end OneClickVirt
